import Mathlib

/-!
A verification development for the `ronto` terminal text editor
(`src/main.rs`).  The data model and operations below are a shallow
embedding of the Rust source: editor text is modelled as `List Char`
(the design fixes a one-byte/one-character unit), `usize` arithmetic is
`Nat` (the source guards its subtractions exactly where this file does),
and the two effectful inputs of the save path — the filename prompt and
the outcome of the file write — are passed as explicit parameters.
Comments on each definition cite the lines of `src/main.rs` they embed.

Rust indexing `rows[i]` panics when out of range; those sites are
modelled with `List.getD`/`List.set` (which default / no-op out of
range) and every theorem below only exercises them in range, matching
the source's behaviour on the states considered.
-/

/-- `const TAB_STOP: usize = 8` (main.rs:57). -/
def TAB_STOP : Nat := 8

/-- `const RONTO_QUIT_TIMES: u8 = 3` (main.rs:58). -/
def RONTO_QUIT_TIMES : Nat := 3

/-- `ctrl_key` strips a key down to its control value, `key & 0x1f`,
i.e. the low five bits, i.e. `key % 32` (main.rs:129-132). -/
def ctrl_key (key : Nat) : Nat := key % 32

/-- `const ESC: u16 = b'\x1b' as u16` (main.rs:35). -/
def ESC : Nat := 27

/-- `const RETURN: u16 = b'\r' as u16` (main.rs:36). -/
def RETURN : Nat := 13

/-- `const CTRL_Q: u16 = ctrl_key(b'q')` (main.rs:41); evaluates to 17. -/
def CTRL_Q : Nat := ctrl_key 113

/-- `const CTRL_H: u16 = ctrl_key(b'h')` (main.rs:42); evaluates to 8. -/
def CTRL_H : Nat := ctrl_key 104

/-- `const CTRL_L: u16 = ctrl_key(b'l')` (main.rs:43); evaluates to 12. -/
def CTRL_L : Nat := ctrl_key 108

/-- `const CTRL_S: u16 = ctrl_key(b's')` (main.rs:44); evaluates to 19. -/
def CTRL_S : Nat := ctrl_key 115

/-- `const BACKSPACE: u16 = 127` (main.rs:45). -/
def BACKSPACE : Nat := 127

/-- Sentinel key codes for special keys (main.rs:46-54). -/
def ARROW_UP : Nat := 1000

def ARROW_LEFT : Nat := 1001

def ARROW_DOWN : Nat := 1002

def ARROW_RIGHT : Nat := 1003

def PAGE_UP : Nat := 1004

def PAGE_DOWN : Nat := 1005

def HOME_KEY : Nat := 1006

def END_KEY : Nat := 1007

def DEL_KEY : Nat := 1008

/-- `struct ERow` (main.rs:78-82): one line of text plus its rendered
(tab-expanded) form. -/
structure ERow where
  line : List Char
  render : List Char
deriving Repr, DecidableEq

/-- Out-of-range fallback for `rows[i]` sites; see the module comment. -/
def emptyERow : ERow := { line := [], render := [] }

/-- `struct EditorConfig` (main.rs:60-76).  `status_message_time` and
`orig_termios` are omitted: the former is a pure view concern (message
expiry while rendering) and the latter is the terminal capability, both
outside the edited state. -/
structure EditorConfig where
  cursor_x : Nat
  cursor_y : Nat
  render_x : Nat
  row_offset : Nat
  column_offset : Nat
  screen_rows : Nat
  screen_cols : Nat
  rows : List ERow
  dirty : Bool
  quit_times : Nat
  filename : String
  status_message : String
deriving Repr, DecidableEq

/-- The initial `EditorConfig` built in `main` (main.rs:93-108). -/
def initial_config : EditorConfig :=
  { cursor_x := 0, cursor_y := 0, render_x := 0, row_offset := 0,
    column_offset := 0, screen_rows := 0, screen_cols := 0, rows := [],
    dirty := false, quit_times := RONTO_QUIT_TIMES, filename := "",
    status_message := "" }

/-- Result of one trip through `editor_process_keypress`: the updated
state, process exit (`shutdown`, main.rs:346-360), or the `todo!()`
stub at main.rs:600 (which aborts the process). -/
inductive StepResult where
  | cont (config : EditorConfig) : StepResult
  | exited (code : Nat) : StepResult
  | stuck : StepResult
deriving Repr, DecidableEq

/-- `Vec::insert(at, x)`: insert before position `at`, shifting the
rest right.  Callers in the source guard `at <= len`. -/
def listInsertAt : Nat → α → List α → List α
  | 0, a, l => a :: l
  | _ + 1, a, [] => [a]
  | n + 1, a, x :: xs => x :: listInsertAt n a xs

/-- `Vec::remove(at)`: remove the element at position `at`, shifting the
rest left.  Callers in the source guard `at < len`. -/
def listRemoveAt : Nat → List α → List α
  | _, [] => []
  | 0, _ :: xs => xs
  | n + 1, x :: xs => x :: listRemoveAt n xs

/-- The render loop of `editor_update_row` (main.rs:208-220): a tab
emits one space and then spaces until the column index is a multiple of
`TAB_STOP` — i.e. exactly `TAB_STOP - idx % TAB_STOP` spaces; any other
character is copied.  `idx` is the number of cells emitted so far. -/
def editor_update_row_render : List Char → Nat → List Char
  | [], _ => []
  | c :: cs, idx =>
    if c = '\t' then
      List.replicate (TAB_STOP - idx % TAB_STOP) ' ' ++
        editor_update_row_render cs (idx + (TAB_STOP - idx % TAB_STOP))
    else
      c :: editor_update_row_render cs (idx + 1)

/-- `editor_update_row` (main.rs:197-223): recompute `render` from
`line`. -/
def editor_update_row (erow : ERow) : ERow :=
  { erow with render := editor_update_row_render erow.line 0 }

/-- The accumulation loop of `editor_row_cursorx_to_renderx`
(main.rs:229-234): per character, a tab does
`rx += (TAB_STOP - 1) - rx % TAB_STOP` and then, like every character,
`rx += 1`. -/
def cursorx_to_renderx_loop : List Char → Nat → Nat
  | [], rx => rx
  | c :: cs, rx =>
    if c = '\t' then
      cursorx_to_renderx_loop cs (rx + ((TAB_STOP - 1) - rx % TAB_STOP) + 1)
    else
      cursorx_to_renderx_loop cs (rx + 1)

/-- `editor_row_cursorx_to_renderx` (main.rs:225-237): walk the first
`cx` characters of the row. -/
def editor_row_cursorx_to_renderx (row : List Char) (cx : Nat) : Nat :=
  cursorx_to_renderx_loop (row.take cx) 0

/-- `editor_insert_row` (main.rs:239-251): no-op when `at > len`,
otherwise build the row, render it, and insert it at `at`. -/
def editor_insert_row (config : EditorConfig) (s : List Char) (at_ : Nat) :
    EditorConfig :=
  if at_ > config.rows.length then config
  else
    { config with
        rows := listInsertAt at_ (editor_update_row { line := s, render := [] })
          config.rows }

/-- `editor_del_row` (main.rs:253-258): no-op when `at >= len`. -/
def editor_del_row (config : EditorConfig) (at_ : Nat) : EditorConfig :=
  if at_ ≥ config.rows.length then config
  else { config with rows := listRemoveAt at_ config.rows }

/-- `editor_row_append_string` (main.rs:260-263). -/
def editor_row_append_string (erow : ERow) (s : List Char) : ERow :=
  editor_update_row { erow with line := erow.line ++ s }

/-- `editor_row_insert_char` (main.rs:265-275): clamp `at` to the line
length, insert, re-render. -/
def editor_row_insert_char (erow : ERow) (at_ : Nat) (c : Char) : ERow :=
  editor_update_row
    { erow with line := listInsertAt (min at_ erow.line.length) c erow.line }

/-- `editor_row_del_char` (main.rs:277-283): no-op when `at >= len`. -/
def editor_row_del_char (erow : ERow) (at_ : Nat) : ERow :=
  if at_ ≥ erow.line.length then erow
  else editor_update_row { erow with line := listRemoveAt at_ erow.line }

/-- `editor_insert_char` (main.rs:287-296).  Note the source inserts the
fresh empty row at position `0`, not at the end of the buffer. -/
def editor_insert_char (config : EditorConfig) (c : Char) : EditorConfig :=
  let config :=
    if config.cursor_y = config.rows.length then
      editor_insert_row config [] 0
    else config
  { config with
      rows := config.rows.set config.cursor_y
        (editor_row_insert_char (config.rows.getD config.cursor_y emptyERow)
          config.cursor_x c),
      cursor_x := config.cursor_x + 1,
      dirty := true }

/-- `editor_del_char` (main.rs:298-325).  The two early returns do not
set `dirty`. -/
def editor_del_char (config : EditorConfig) : EditorConfig :=
  let cx := config.cursor_x
  let cy := config.cursor_y
  if cy = config.rows.length then config
  else if cx = 0 ∧ cy = 0 then config
  else
    let config :=
      if cx > 0 then
        { config with
            rows := config.rows.set cy
              (editor_row_del_char (config.rows.getD cy emptyERow) (cx - 1)),
            cursor_x := cx - 1 }
      else
        let config := { config with
            cursor_x := (config.rows.getD (cy - 1) emptyERow).line.length }
        let appended := editor_row_append_string
          (config.rows.getD (cy - 1) emptyERow)
          ((config.rows.getD cy emptyERow).line)
        let config := { config with rows := config.rows.set (cy - 1) appended }
        let config := editor_del_row config cy
        { config with cursor_y := cy - 1 }
    { config with dirty := true }

/-- `editor_insert_new_line` (main.rs:327-341).  `split_off(cx)` leaves
the first `cx` characters in the row (its render is refreshed only
afterwards) and carries the rest into a new row at `cy + 1`. -/
def editor_insert_new_line (config : EditorConfig) : EditorConfig :=
  let cx := config.cursor_x
  let cy := config.cursor_y
  let config :=
    if cx = 0 then editor_insert_row config [] cy
    else
      let line := (config.rows.getD cy emptyERow).line
      let config := { config with
          rows := config.rows.set cy
            { config.rows.getD cy emptyERow with line := line.take cx } }
      let config := editor_insert_row config (line.drop cx) (cy + 1)
      { config with
          rows := config.rows.set cy
            (editor_update_row (config.rows.getD cy emptyERow)) }
  { config with cursor_y := config.cursor_y + 1, cursor_x := 0, dirty := true }

/-- `BufRead::lines` as used by `editor_open` (main.rs:144-148): split
on `'\n'`; a line that ended with `'\n'` also drops one trailing `'\r'`
immediately before it; a final unterminated segment is still a line. -/
def fileLines : List Char → List (List Char)
  | [] => []
  | '\n' :: cs => [] :: fileLines cs
  | '\r' :: '\n' :: cs => [] :: fileLines cs
  | c :: cs =>
    match fileLines cs with
    | [] => [[c]]
    | l :: ls => (c :: l) :: ls

/-- `editor_open` (main.rs:140-151): append one row per input line, each
inserted at the current row count.  The file's byte content is the
explicit `content` parameter. -/
def editor_open (content : List Char) (config : EditorConfig) : EditorConfig :=
  (fileLines content).foldl
    (fun cfg line => editor_insert_row cfg line cfg.rows.length) config

/-- The serialization loop of `editor_rows_to_string` (main.rs:187-190):
each row's line followed by a newline. -/
def rowsJoin : List ERow → List Char
  | [] => []
  | r :: rs => r.line ++ '\n' :: rowsJoin rs

/-- `editor_rows_to_string` (main.rs:180-193). -/
def editor_rows_to_string (config : EditorConfig) : List Char :=
  rowsJoin config.rows

/-- `editor_set_status_message` (main.rs:666-669); the timestamp is a
view concern and is not modelled. -/
def editor_set_status_message (config : EditorConfig) (message : String) :
    EditorConfig :=
  { config with status_message := message }

/-- Text of the save-abort status message (main.rs:157). -/
def save_aborted_text : String := "Save aborted"

/-- Text of the save-failure status message (main.rs:173), up to the
appended I/O error description. -/
def save_io_error_text : String := "Cant save! I/O error: "

/-- Suffix of the save-success status message (main.rs:176). -/
def bytes_written_text : String := " bytes written to disk"

/-- `editor_save` (main.rs:153-178).  `promptResult` is what
`editor_prompt` would return (empty means cancelled) and `writeErr` is
the outcome of the open-and-write (`some e` is the I/O error).  Note the
source's error arm does not return: after setting the error message it
still sets the byte-count message and clears `dirty`. -/
def editor_save (promptResult : String) (writeErr : Option String)
    (config : EditorConfig) : EditorConfig :=
  let config :=
    if config.filename = "" then { config with filename := promptResult }
    else config
  if config.filename = "" then
    editor_set_status_message config save_aborted_text
  else
    let buf := editor_rows_to_string config
    let config :=
      match writeErr with
      | some e => editor_set_status_message config (save_io_error_text ++ e)
      | none => config
    let config :=
      editor_set_status_message config (toString buf.length ++ bytes_written_text)
    { config with dirty := false }

/-- `is_ctrl` (main.rs:134-136). -/
def is_ctrl (key : Nat) : Bool := decide (key ≤ 31 ∨ key = 127)

/-- `u8::is_ascii`. -/
def byte_is_ascii (b : Nat) : Bool := decide (b < 128)

/-- `u8::is_ascii_whitespace`: space, tab, newline, form feed, carriage
return. -/
def byte_is_ascii_whitespace (b : Nat) : Bool :=
  decide (b = 32 ∨ b = 9 ∨ b = 10 ∨ b = 12 ∨ b = 13)

/-- `<[u8]>::trim_ascii_end` as used at main.rs:404. -/
def trim_ascii_end (l : List Nat) : List Nat :=
  (l.reverse.dropWhile byte_is_ascii_whitespace).reverse

/-- `editor_read_key` (main.rs:396-450) as a pure function of the bytes
read: `b0` is the first byte and `raw` the 3-byte follow-up buffer after
the second `read` (unfilled slots keep the `b' '` initializer, trimmed
away below exactly as in the source).  Out-of-range `seq` indexing
(a panic in Rust, reachable on short reads) is modelled with `getD`;
no theorem below exercises it. -/
def editor_read_key (b0 : Nat) (raw : List Nat) : Nat :=
  if b0 = ESC then
    let seq := trim_ascii_end raw
    let s0 := seq.getD 0 0
    let s1 := seq.getD 1 0
    let s2 := seq.getD 2 0
    if ¬ byte_is_ascii s0 ∨ ¬ byte_is_ascii s1 then ESC
    else if s0 = 91 then
      if 48 ≤ s1 ∧ s1 ≤ 57 then
        if ¬ byte_is_ascii s2 then ESC
        else if s2 = 126 then
          if s1 = 49 then HOME_KEY
          else if s1 = 51 then DEL_KEY
          else if s1 = 52 then END_KEY
          else if s1 = 53 then PAGE_UP
          else if s1 = 54 then PAGE_DOWN
          else if s1 = 55 then HOME_KEY
          else if s1 = 56 then END_KEY
          else 0
        else ESC
      else
        if s1 = 65 then ARROW_UP
        else if s1 = 66 then ARROW_DOWN
        else if s1 = 67 then ARROW_RIGHT
        else if s1 = 68 then ARROW_LEFT
        else if s1 = 72 then HOME_KEY
        else if s1 = 70 then END_KEY
        else 0
    else if s0 = 79 then
      if s1 = 72 then HOME_KEY
      else if s1 = 70 then END_KEY
      else 0
    else ESC
  else b0

/-- `editor_move_cursor` (main.rs:610-662).  The final clamp reuses the
`cx`/`cy` bindings captured at entry — the values from before the move —
exactly as the source's shadowed variables do. -/
def editor_move_cursor (key : Nat) (config : EditorConfig) : EditorConfig :=
  let cx := config.cursor_x
  let cy := config.cursor_y
  let len := config.rows.length
  let row : Option ERow :=
    if cy ≥ len then none else some (config.rows.getD cy emptyERow)
  let config :=
    if key = ARROW_UP then
      if cy ≠ 0 then { config with cursor_y := cy - 1 } else config
    else if key = ARROW_LEFT then
      if cx ≠ 0 then { config with cursor_x := cx - 1 }
      else if cy > 0 then
        { config with
            cursor_y := cy - 1,
            cursor_x := (config.rows.getD (cy - 1) emptyERow).line.length }
      else config
    else if key = ARROW_DOWN then
      if cy < len then { config with cursor_y := cy + 1 } else config
    else if key = ARROW_RIGHT then
      match row with
      | some r =>
        if cx < r.line.length then { config with cursor_x := cx + 1 }
        else if cx = r.line.length then
          { config with cursor_y := cy + 1, cursor_x := 0 }
        else config
      | none => config
    else config
  let row2 : Option ERow :=
    if cy ≥ len then none else some (config.rows.getD cy emptyERow)
  let row_len := match row2 with
    | some r => r.line.length
    | none => 0
  if cx > row_len then { config with cursor_x := row_len } else config

/-- The `while times > 0` loop of the PageUp/PageDown arm
(main.rs:589-597). -/
def editor_move_cursor_times : Nat → Nat → EditorConfig → EditorConfig
  | 0, _, config => config
  | n + 1, key, config => editor_move_cursor_times n key (editor_move_cursor key config)

/-- The PageUp/PageDown arm of `editor_process_keypress`
(main.rs:582-598).  `row_offset + screen_rows - 1` is the source's usize
expression; the source does not clamp `cursor_y` to the row count. -/
def editor_page_move (key : Nat) (config : EditorConfig) : EditorConfig :=
  let config :=
    if key = PAGE_UP then { config with cursor_y := config.row_offset }
    else { config with
        cursor_y := config.row_offset + config.screen_rows - 1 }
  editor_move_cursor_times config.screen_rows
    (if key = PAGE_UP then ARROW_UP else ARROW_DOWN) config

/-- The `config.quit_times = RONTO_QUIT_TIMES` reset executed after the
match in `editor_process_keypress` (main.rs:607); the Ctrl-Q warning arm
returns early and skips it. -/
def resetQuit (config : EditorConfig) : EditorConfig :=
  { config with quit_times := RONTO_QUIT_TIMES }

/-- The Ctrl-Q warning status message (main.rs:544-550). -/
def quit_warning_message (n : Nat) : String :=
  "WARNING!!! File has unsaved changes. Press Ctrl-Q " ++ toString n ++
    " more times to quit."

/-- `editor_process_keypress` (main.rs:535-608) on an already-decoded
key.  `promptResult`/`writeErr` feed `editor_save` (see there).  The
`CTRL_L | ESC` arm is the source's `todo!()`. -/
def editor_process_keypress (promptResult : String) (writeErr : Option String)
    (key : Nat) (config : EditorConfig) : StepResult :=
  if key = RETURN then
    StepResult.cont (resetQuit (editor_insert_new_line config))
  else if key = CTRL_Q then
    if config.dirty ∧ config.quit_times > 0 then
      StepResult.cont
        { editor_set_status_message config
            (quit_warning_message config.quit_times) with
          quit_times := config.quit_times - 1 }
    else StepResult.exited 0
  else if key = CTRL_S then
    StepResult.cont (resetQuit (editor_save promptResult writeErr config))
  else if key = HOME_KEY then
    StepResult.cont (resetQuit { config with cursor_x := 0 })
  else if key = END_KEY then
    StepResult.cont (resetQuit
      (if config.cursor_y < config.rows.length then
        { config with
            cursor_x := (config.rows.getD config.cursor_y emptyERow).line.length }
      else config))
  else if key = BACKSPACE ∨ key = CTRL_H ∨ key = DEL_KEY then
    StepResult.cont (resetQuit (editor_del_char
      (if key = DEL_KEY then editor_move_cursor ARROW_RIGHT config else config)))
  else if key = ARROW_UP ∨ key = ARROW_DOWN ∨ key = ARROW_LEFT ∨ key = ARROW_RIGHT then
    StepResult.cont (resetQuit (editor_move_cursor key config))
  else if key = PAGE_UP ∨ key = PAGE_DOWN then
    StepResult.cont (resetQuit (editor_page_move key config))
  else if key = CTRL_L ∨ key = ESC then
    StepResult.stuck
  else
    StepResult.cont (resetQuit (editor_insert_char config (Char.ofNat (key % 256))))

/-- Run a list of already-decoded keys through the main loop's
keypress step, stopping if the editor exits or aborts. -/
def runKeys (promptResult : String) (writeErr : Option String)
    (keys : List Nat) (config : EditorConfig) : StepResult :=
  match keys with
  | [] => StepResult.cont config
  | k :: ks =>
    match editor_process_keypress promptResult writeErr k config with
    | StepResult.cont c => runKeys promptResult writeErr ks c
    | r => r

/-- Project the still-running state out of a step result. -/
def stepConfig? : StepResult → Option EditorConfig
  | StepResult.cont c => some c
  | _ => none

/-- `editor_scroll` (main.rs:709-731).  Note the two column branches
compare `cursor_x` (a file column) against `column_offset` but assign
from `render_x` (a render column). -/
def editor_scroll (config : EditorConfig) : EditorConfig :=
  let config :=
    { config with
        render_x :=
          if config.cursor_y < config.rows.length then
            editor_row_cursorx_to_renderx
              (config.rows.getD config.cursor_y emptyERow).line config.cursor_x
          else config.cursor_x }
  let config :=
    if config.cursor_y < config.row_offset then
      { config with row_offset := config.cursor_y }
    else config
  let config :=
    if config.cursor_y ≥ config.row_offset + config.screen_rows then
      { config with row_offset := config.cursor_y - config.screen_rows + 1 }
    else config
  let config :=
    if config.cursor_x < config.column_offset then
      { config with column_offset := config.render_x }
    else config
  let config :=
    if config.cursor_x ≥ config.column_offset + config.screen_cols then
      { config with column_offset := config.render_x - config.screen_cols + 1 }
    else config
  config

/-- Build a rendered row from a string, as `editor_insert_row` does. -/
def mkRow (s : String) : ERow := editor_update_row { line := s.data, render := [] }

/-- Spec-side definition, for comparison with the code: the round-trip
target from section 8 of the design — the file content itself, except
that a missing final newline is normalized to a trailing newline. -/
def specNormalize (content : List Char) : List Char :=
  if content = [] then []
  else if content.getLast? = some '\n' then content
  else content ++ ['\n']

/-- Whether the content contains a CR immediately followed by LF. -/
def hasCRLF : List Char → Bool
  | [] => false
  | c :: cs => if c = '\r' ∧ cs.head? = some '\n' then true else hasCRLF cs

/-- Load-then-serialize without edits: `editor_open` on the initial
config followed by `editor_rows_to_string`. -/
def round_trip (content : List Char) : List Char :=
  editor_rows_to_string (editor_open content initial_config)

/-- The spec-side rendered-lines view of the lines of a file: used to
relate `rowsJoin` to `fileLines`. -/
def joinLines : List (List Char) → List Char
  | [] => []
  | l :: ls => l ++ '\n' :: joinLines ls

/-! Concrete inputs used by the witnesses and counterexamples below. -/

/-- Empty prompt result (the prompt is never reached in the scenarios
below). -/
def no_prompt : String := ""

def str_f_txt : String := "f.txt"

def str_disk_full : String := "disk full"

def str_abc : String := "abc"

def str_a : String := "a"

def str_ab : String := "ab"

def str_abcd : String := "abcd"

def str_x : String := "x"

def c5_file : String := "abcdef\nab"

def tab_line : String := "\taaaa"

def a_tab_b : String := "a\tb"

def crlf_content : String := "a\r\n"

def lf_content : String := "a\n"

def roundtrip_sample : String := "hello\nworld"

/-- The follow-up buffer for the escape sequence `ESC [ Z`: the read
fills two bytes and the third keeps the space initializer. -/
def escTail : List Nat := [91, 90, 32]

/-- Six ArrowRight presses followed by one ArrowDown. -/
def c5_keys : List Nat :=
  [ARROW_RIGHT, ARROW_RIGHT, ARROW_RIGHT, ARROW_RIGHT, ARROW_RIGHT,
    ARROW_RIGHT, ARROW_DOWN]

/-- A dirty buffer with a filename, for the save-failure scenario. -/
def cfgC2 : EditorConfig :=
  { initial_config with
      filename := str_f_txt, rows := [mkRow str_abc], dirty := true }

/-- An unnamed dirty buffer at the initial quit threshold. -/
def cfgC3 : EditorConfig :=
  { initial_config with
      dirty := true }

/-- A clean one-row buffer with the cursor at the origin. -/
def cfgC4 : EditorConfig :=
  { initial_config with
      rows := [mkRow str_a] }

/-- The state right after opening a two-line file on a 20x80 screen. -/
def cfgC5 : EditorConfig :=
  { editor_open c5_file.data initial_config with
      screen_rows := 20, screen_cols := 80 }

/-- Cursor at the end of a four-character row above a one-character
row. -/
def cfgC6 : EditorConfig :=
  { initial_config with
      rows := [mkRow str_abcd, mkRow str_x], cursor_x := 4 }

/-- Cursor one past the last row of a one-row buffer. -/
def cfgC7 : EditorConfig :=
  { initial_config with
      rows := [mkRow str_abc], cursor_y := 1 }

/-- A clean one-row buffer with the cursor at the origin. -/
def cfgC8 : EditorConfig :=
  { initial_config with
      rows := [mkRow str_ab] }

/-- Cursor after the four characters following a tab, on a narrow
screen. -/
def cfgC10 : EditorConfig :=
  { initial_config with
      rows := [mkRow tab_line], cursor_x := 5, screen_rows := 10,
      screen_cols := 3 }

/-! Helper lemmas shared by the claim theorems. -/

/-- The render-column walk of `editor_row_cursorx_to_renderx` computes
exactly the length of the rendered form of the characters walked. -/
theorem renderx_loop_eq_length (xs : List Char) :
    ∀ rx, cursorx_to_renderx_loop xs rx = rx + (editor_update_row_render xs rx).length := by
  induction xs with
  | nil => intro rx; simp [cursorx_to_renderx_loop, editor_update_row_render]
  | cons c cs ih =>
    intro rx
    by_cases h : c = '\t'
    · have hm : rx % TAB_STOP < TAB_STOP := Nat.mod_lt _ (by norm_num [TAB_STOP])
      have harg : rx + ((TAB_STOP - 1) - rx % TAB_STOP) + 1 = rx + (TAB_STOP - rx % TAB_STOP) := by
        norm_num [TAB_STOP] at hm ⊢
        omega
      simp only [cursorx_to_renderx_loop, editor_update_row_render, if_pos h, harg, ih]
      simp [List.length_append]
      omega
    · simp only [cursorx_to_renderx_loop, editor_update_row_render, if_neg h, ih]
      simp
      omega

/-- Rendering distributes over appending source characters: the
rendered suffix starts at the column where the rendered prefix ends. -/
theorem render_append (xs ys : List Char) :
    ∀ idx, editor_update_row_render (xs ++ ys) idx =
      editor_update_row_render xs idx ++
        editor_update_row_render ys (idx + (editor_update_row_render xs idx).length) := by
  induction xs with
  | nil => intro idx; simp [editor_update_row_render]
  | cons c cs ih =>
    intro idx
    by_cases h : c = '\t'
    · simp only [List.cons_append, editor_update_row_render, if_pos h, List.append_eq]
      rw [ih]
      simp [List.append_assoc, Nat.add_assoc]
    · simp only [List.cons_append, editor_update_row_render, if_neg h, List.append_eq]
      rw [ih]
      simp [Nat.add_assoc]
      congr 1
      omega

/-- Unfolding of `editor_process_keypress` on the quit key. -/
theorem process_ctrlq (p : String) (w : Option String) (cfg : EditorConfig) :
    editor_process_keypress p w CTRL_Q cfg =
      if cfg.dirty ∧ cfg.quit_times > 0 then
        StepResult.cont
          { cfg with
              status_message := quit_warning_message cfg.quit_times,
              quit_times := cfg.quit_times - 1 }
      else StepResult.exited 0 := by
  simp [editor_process_keypress, editor_set_status_message, CTRL_Q, RETURN, ctrl_key]

/-- Unfolding of `editor_process_keypress` on a key that reaches the
default (insert-character) arm of the match. -/
theorem process_unbound_ctrl (p : String) (w : Option String) (key : Nat)
    (cfg : EditorConfig) (h31 : key ≤ 31 ∨ key = 127)
    (h8 : key ≠ 8) (h12 : key ≠ 12) (h13 : key ≠ 13) (h17 : key ≠ 17)
    (h19 : key ≠ 19) (h27 : key ≠ 27) (h127 : key ≠ 127) :
    editor_process_keypress p w key cfg =
      StepResult.cont (resetQuit (editor_insert_char cfg (Char.ofNat (key % 256)))) := by
  have hlt : key ≤ 31 := by omega
  have hA : key ≠ 1000 := by omega
  have hB : key ≠ 1001 := by omega
  have hC : key ≠ 1002 := by omega
  have hD : key ≠ 1003 := by omega
  have hE : key ≠ 1004 := by omega
  have hF : key ≠ 1005 := by omega
  have hG : key ≠ 1006 := by omega
  have hH : key ≠ 1007 := by omega
  have hI : key ≠ 1008 := by omega
  simp [editor_process_keypress, RETURN, CTRL_Q, CTRL_S, CTRL_H, CTRL_L, ESC,
    HOME_KEY, END_KEY, BACKSPACE, DEL_KEY, ARROW_UP, ARROW_DOWN, ARROW_LEFT,
    ARROW_RIGHT, PAGE_UP, PAGE_DOWN, ctrl_key, h8, h12, h13, h17, h19, h27,
    h127, hA, hB, hC, hD, hE, hF, hG, hH, hI]

/-- `getD` after `set` at an in-range index yields the new element. -/
theorem listGetD_set_self (l : List α) (i : Nat) (a d : α) (h : i < l.length) :
    (l.set i a).getD i d = a := by
  induction l generalizing i with
  | nil => simp at h
  | cons x xs ih =>
    cases i with
    | zero => simp
    | succ n => simpa using ih n (by simpa using h)

/-- Inserting at the length of a list appends. -/
theorem listInsertAt_length_self : ∀ (l : List α) (a : α),
    listInsertAt l.length a l = l ++ [a] := by
  intro l a
  induction l with
  | nil => rfl
  | cons x xs ih => simpa [listInsertAt] using ih

/-- The `editor_open` fold appends one row per line, in order. -/
theorem open_fold_lines : ∀ (ls : List (List Char)) (cfg : EditorConfig),
    ((ls.foldl (fun c l => editor_insert_row c l c.rows.length) cfg).rows).map (fun r => r.line) =
      cfg.rows.map (fun r => r.line) ++ ls := by
  intro ls
  induction ls with
  | nil => intro cfg; simp
  | cons l ls ih =>
    intro cfg
    rw [List.foldl_cons, ih]
    simp [editor_insert_row, listInsertAt_length_self, editor_update_row]

/-- `rowsJoin` only looks at the `line` fields. -/
theorem rowsJoin_lines : ∀ rows : List ERow,
    rowsJoin rows = joinLines (rows.map (fun r => r.line)) := by
  intro rows
  induction rows with
  | nil => rfl
  | cons r rs ih => simp [rowsJoin, joinLines, ih]

/-- `fileLines` produces no lines only on empty content. -/
theorem fileLines_eq_nil_iff : ∀ xs : List Char, fileLines xs = [] ↔ xs = [] := by
  intro xs
  induction xs using fileLines.induct with
  | case1 => simp [fileLines]
  | case2 cs ih => simp [fileLines]
  | case3 cs ih => simp [fileLines]
  | case4 c cs h1 h2 hm ih =>
    simp only [fileLines, hm]
    simp
  | case5 c cs h1 h2 l ls hm ih =>
    simp only [fileLines, hm]
    simp

/-- Re-joining the split lines of CRLF-free content restores the
content up to final-newline normalization. -/
theorem joinLines_fileLines : ∀ xs : List Char, hasCRLF xs = false →
    joinLines (fileLines xs) = specNormalize xs := by
  intro xs
  induction xs using fileLines.induct with
  | case1 => intro _; simp [fileLines, joinLines, specNormalize]
  | case2 cs ih =>
    intro h
    have hcs : hasCRLF cs = false := by simpa [hasCRLF] using h
    simp only [fileLines, joinLines, ih hcs]
    rcases cs with _ | ⟨d, ds⟩
    · simp [specNormalize, joinLines]
    · simp only [specNormalize, List.getLast?_cons_cons]
      by_cases hl : (d :: ds).getLast? = some '\n'
      · simp [hl]
      · simp [hl]
  | case3 cs ih =>
    intro h
    simp [hasCRLF] at h
  | case4 c cs h1 h2 hm ih =>
    intro h
    have hcs : cs = [] := (fileLines_eq_nil_iff cs).mp hm
    subst hcs
    have hc : ¬ (c = '\n') := fun hh => h1 hh
    simp [fileLines, joinLines, specNormalize, hc]
  | case5 c cs h1 h2 l ls hm ih =>
    intro h
    have hcond : ¬ (c = '\r' ∧ cs.head? = some '\n') := by
      rintro ⟨hc, hh⟩
      rcases cs with _ | ⟨d, ds⟩
      · simp at hh
      · simp at hh
        exact h2 ds hc (by rw [hh])
    have hcs : hasCRLF cs = false := by
      rw [hasCRLF, if_neg hcond] at h
      exact h
    have hne : cs ≠ [] := by
      intro hh
      rw [hh] at hm
      simp [fileLines] at hm
    simp only [fileLines, hm, joinLines]
    have hstep : joinLines (fileLines cs) = specNormalize cs := ih hcs
    rw [hm, joinLines] at hstep
    rw [List.cons_append, hstep]
    rcases cs with _ | ⟨d, ds⟩
    · exact absurd rfl hne
    · simp only [specNormalize, List.getLast?_cons_cons]
      by_cases hl : (d :: ds).getLast? = some '\n'
      · simp [hl]
      · simp [hl]

/-! Claim theorems. -/

/-- Claim C1: for every row content and every file column `col` not
exceeding the row's length, `editor_row_cursorx_to_renderx row col` is
the column at which the `col`-th source character begins in the row's
rendered form: it equals the rendered length of the first `col`
characters, and the full rendered row is exactly that rendered prefix
followed by the rendering of the remaining characters starting at that
column.  The two tab-expansion computations agree on all inputs. -/
theorem C1_render_col_agrees (row : List Char) (col : Nat) (h : col ≤ row.length) :
    editor_row_cursorx_to_renderx row col =
      (editor_update_row { line := row.take col, render := [] }).render.length ∧
    (editor_update_row { line := row, render := [] }).render =
      (editor_update_row { line := row.take col, render := [] }).render ++
        editor_update_row_render (row.drop col)
          (editor_row_cursorx_to_renderx row col) := by
  have h1 : editor_row_cursorx_to_renderx row col =
      (editor_update_row_render (row.take col) 0).length := by
    rw [editor_row_cursorx_to_renderx, renderx_loop_eq_length]
    simp
  refine ⟨by simpa [editor_update_row] using h1, ?_⟩
  have h2 := render_append (row.take col) (row.drop col) 0
  rw [List.take_append_drop] at h2
  simp only [editor_update_row]
  rw [h2, h1]
  simp

/-- Witness for C1 at the row "a\tb" and column 2 (just past the tab,
whose expansion ends at render column 8). -/
theorem C1_render_col_agrees_witness : 2 ≤ a_tab_b.data.length ∧
    (editor_row_cursorx_to_renderx a_tab_b.data 2 =
      (editor_update_row { line := a_tab_b.data.take 2, render := [] }).render.length ∧
    (editor_update_row { line := a_tab_b.data, render := [] }).render =
      (editor_update_row { line := a_tab_b.data.take 2, render := [] }).render ++
        editor_update_row_render (a_tab_b.data.drop 2)
          (editor_row_cursorx_to_renderx a_tab_b.data 2)) :=
  ⟨by decide, C1_render_col_agrees a_tab_b.data 2 (by decide)⟩

/-- Claim C2 (code bug, evaluated at the failing input): on a dirty
named buffer whose file write fails, `editor_save` still clears the
dirty flag and reports the byte-count success message instead of the
error (the source's error arm lacks a return, main.rs:172-177); only
the rows survive unchanged.  The claim — and the design — require
`dirty` to stay set and an error to be reported. -/
theorem C2_save_failure_clears_dirty :
    (editor_save no_prompt (some str_disk_full) cfgC2).dirty = false ∧
    (editor_save no_prompt (some str_disk_full) cfgC2).status_message =
      toString (editor_rows_to_string cfgC2).length ++ bytes_written_text ∧
    (editor_save no_prompt (some str_disk_full) cfgC2).status_message ≠
      save_io_error_text ++ str_disk_full ∧
    (editor_save no_prompt (some str_disk_full) cfgC2).rows = cfgC2.rows := by
  decide

/-- Claim C3 counterexample: on an unnamed dirty buffer with the quit
counter at its threshold 3, the third Ctrl-Q press does not terminate
the editor (the state machine is still running), and the fourth press
does. -/
theorem C3_third_press_does_not_quit :
    (stepConfig? (runKeys no_prompt none [CTRL_Q, CTRL_Q, CTRL_Q] cfgC3)).isSome = true ∧
    runKeys no_prompt none [CTRL_Q, CTRL_Q, CTRL_Q, CTRL_Q] cfgC3 =
      StepResult.exited 0 := by
  decide

/-- Claim C3 as amended: on a dirty buffer with the quit counter at its
threshold 3, the first three Ctrl-Q presses warn with strictly
decreasing remaining counts (3, 2, 1) and do not terminate; the fourth
consecutive press terminates the editor. -/
theorem C3_quit_takes_four_presses (p : String) (w : Option String)
    (cfg : EditorConfig) (hd : cfg.dirty = true) (hq : cfg.quit_times = 3) :
    editor_process_keypress p w CTRL_Q cfg =
      StepResult.cont { cfg with status_message := quit_warning_message 3, quit_times := 2 } ∧
    editor_process_keypress p w CTRL_Q
        { cfg with status_message := quit_warning_message 3, quit_times := 2 } =
      StepResult.cont { cfg with status_message := quit_warning_message 2, quit_times := 1 } ∧
    editor_process_keypress p w CTRL_Q
        { cfg with status_message := quit_warning_message 2, quit_times := 1 } =
      StepResult.cont { cfg with status_message := quit_warning_message 1, quit_times := 0 } ∧
    editor_process_keypress p w CTRL_Q
        { cfg with status_message := quit_warning_message 1, quit_times := 0 } =
      StepResult.exited 0 := by
  refine ⟨?_, ?_, ?_, ?_⟩ <;>
    · rw [process_ctrlq]
      simp [hd, hq]

/-- Witness for the amended C3 on the concrete unnamed dirty buffer. -/
theorem C3_quit_takes_four_presses_witness :
    cfgC3.dirty = true ∧ cfgC3.quit_times = 3 ∧
    (editor_process_keypress no_prompt none CTRL_Q cfgC3 =
      StepResult.cont { cfgC3 with status_message := quit_warning_message 3, quit_times := 2 } ∧
    editor_process_keypress no_prompt none CTRL_Q
        { cfgC3 with status_message := quit_warning_message 3, quit_times := 2 } =
      StepResult.cont { cfgC3 with status_message := quit_warning_message 2, quit_times := 1 } ∧
    editor_process_keypress no_prompt none CTRL_Q
        { cfgC3 with status_message := quit_warning_message 2, quit_times := 1 } =
      StepResult.cont { cfgC3 with status_message := quit_warning_message 1, quit_times := 0 } ∧
    editor_process_keypress no_prompt none CTRL_Q
        { cfgC3 with status_message := quit_warning_message 1, quit_times := 0 } =
      StepResult.exited 0) :=
  ⟨rfl, rfl, C3_quit_takes_four_presses no_prompt none cfgC3 rfl rfl⟩

/-- Claim C4 (code bug, evaluated at the failing input): the escape
sequence `ESC [ Z` has a trailing byte outside the decoding table, and
`editor_read_key` maps it to the key value 0; processing that key is
not a no-op — it falls to the insert arm, writes the NUL character into
the current row, and sets the dirty flag.  The claim — and the design —
require an unrecognized sequence to be a no-op event. -/
theorem C4_malformed_escape_inserts_nul :
    editor_read_key 27 escTail = 0 ∧
    (stepConfig? (editor_process_keypress no_prompt none
        (editor_read_key 27 escTail) cfgC4)).map
        (fun c => (c.rows.map (fun r => r.line), c.dirty, c.cursor_x)) =
      some ([[Char.ofNat 0, 'a']], true, 1) := by
  decide

/-- Claim C5 (code bug, evaluated at the failing input): from the state
reached by opening the file "abcdef\nab", six ArrowRight presses
followed by one ArrowDown leave the cursor at column 6 of row 1, whose
content length is 2 — the invariant `cursor_x ≤ current row length`
does not survive the move (the clamp at the end of
`editor_move_cursor` reuses the pre-move shadowed `cx`/`cy`,
main.rs:649-661). -/
theorem C5_cursor_invariant_violated :
    (stepConfig? (runKeys no_prompt none c5_keys cfgC5)).map
        (fun c => (c.cursor_x, c.cursor_y,
          (c.rows.getD c.cursor_y emptyERow).line.length,
          decide (c.cursor_x ≤ (c.rows.getD c.cursor_y emptyERow).line.length))) =
      some (6, 1, 2, false) := by
  decide

/-- Claim C6 (code bug, evaluated at the failing input): moving down
from the end of the four-character row 0 onto the one-character row 1
leaves `cursor_x = 4`, exceeding the target row's length 1 — the
vertical move does not clamp `cursor_x` to the target row because the
final clamp in `editor_move_cursor` compares the stale pre-move
coordinates against the origin row. -/
theorem C6_vertical_move_misses_clamp :
    (editor_move_cursor ARROW_DOWN cfgC6).cursor_y = 1 ∧
    (editor_move_cursor ARROW_DOWN cfgC6).cursor_x = 4 ∧
    ((editor_move_cursor ARROW_DOWN cfgC6).rows.getD 1 emptyERow).line.length = 1 ∧
    (editor_move_cursor ARROW_DOWN cfgC6).cursor_x >
      ((editor_move_cursor ARROW_DOWN cfgC6).rows.getD 1 emptyERow).line.length := by
  decide

/-- Claim C7 (code bug, evaluated at the failing input): with the
cursor one past the last row of the buffer ["abc"], inserting the
character x does not append an empty row at the end — the source
inserts the empty row at index 0 (main.rs:289), shifting every
pre-existing row down, and then writes the character into the old last
row: the buffer becomes ["", "xabc"] instead of the claimed
["abc", "x"]. -/
theorem C7_insert_below_buffer_prepends_row :
    ((editor_insert_char cfgC7 'x').rows.map (fun r => r.line)) =
      [[], ['x', 'a', 'b', 'c']] ∧
    (editor_insert_char cfgC7 'x').cursor_x = 1 ∧
    (editor_insert_char cfgC7 'x').dirty = true := by
  decide

/-- Claim C8 counterexample: the control code 1 (Ctrl-A) has no bound
action, and processing it is not a no-op — the character with value 1
is inserted into the row's content as text and the dirty flag is set,
contradicting the claim that a control-code value is never inserted. -/
theorem C8_ctrl_code_inserted_as_text :
    (stepConfig? (editor_process_keypress no_prompt none 1 cfgC8)).map
        (fun c => (c.rows.map (fun r => r.line), c.dirty)) =
      some ([[Char.ofNat 1, 'a', 'b']], true) := by
  decide

/-- Claim C8 as amended: a control-code key with a bound action (8, 13,
17, 19, 127) performs it and codes 12 and 27 reach the unimplemented
stub, but every other control code — tab (9) included, necessarily —
is inserted into the current row's content as text at the (clamped)
cursor column, advancing the cursor and setting the dirty flag, rather
than being ignored. -/
theorem C8_unbound_ctrl_inserts_char (p : String) (w : Option String)
    (key : Nat) (cfg : EditorConfig) (hk : is_ctrl key = true)
    (h8 : key ≠ 8) (h12 : key ≠ 12) (h13 : key ≠ 13) (h17 : key ≠ 17)
    (h19 : key ≠ 19) (h27 : key ≠ 27) (h127 : key ≠ 127)
    (hcy : cfg.cursor_y < cfg.rows.length) :
    ∃ c, editor_process_keypress p w key cfg = StepResult.cont c ∧
      c.dirty = true ∧ c.cursor_x = cfg.cursor_x + 1 ∧
      (c.rows.getD cfg.cursor_y emptyERow).line =
        listInsertAt (min cfg.cursor_x (cfg.rows.getD cfg.cursor_y emptyERow).line.length)
          (Char.ofNat key) (cfg.rows.getD cfg.cursor_y emptyERow).line := by
  have h31 : key ≤ 31 ∨ key = 127 := by simpa [is_ctrl] using hk
  have hmod : key % 256 = key := Nat.mod_eq_of_lt (by omega)
  rw [process_unbound_ctrl p w key cfg h31 h8 h12 h13 h17 h19 h27 h127, hmod]
  have hne : ¬ (cfg.cursor_y = cfg.rows.length) := Nat.ne_of_lt hcy
  refine ⟨_, rfl, ?_, ?_, ?_⟩
  · simp [resetQuit, editor_insert_char, hne]
  · simp [resetQuit, editor_insert_char, hne]
  · simp only [resetQuit, editor_insert_char, if_neg hne]
    rw [listGetD_set_self _ _ _ _ (by simpa using hcy)]
    rfl

/-- Witness for the amended C8: the tab key (control code 9) is
inserted into the buffer ["ab"] at the cursor. -/
theorem C8_unbound_ctrl_inserts_char_witness :
    is_ctrl 9 = true ∧ cfgC8.cursor_y < cfgC8.rows.length ∧
    (∃ c, editor_process_keypress no_prompt none 9 cfgC8 = StepResult.cont c ∧
      c.dirty = true ∧ c.cursor_x = cfgC8.cursor_x + 1 ∧
      (c.rows.getD cfgC8.cursor_y emptyERow).line =
        listInsertAt (min cfgC8.cursor_x (cfgC8.rows.getD cfgC8.cursor_y emptyERow).line.length)
          (Char.ofNat 9) (cfgC8.rows.getD cfgC8.cursor_y emptyERow).line) :=
  ⟨by decide, by decide,
    C8_unbound_ctrl_inserts_char no_prompt none 9 cfgC8 (by decide) (by decide)
      (by decide) (by decide) (by decide) (by decide) (by decide) (by decide)
      (by decide)⟩

/-- Claim C9 counterexample: the file content "a\r\n" round-trips to
"a\n" — `BufRead::lines` strips the carriage return before the newline
— so load-then-save is not byte-identical-up-to-final-newline for CRLF
input. -/
theorem C9_crlf_breaks_roundtrip :
    round_trip crlf_content.data = lf_content.data ∧
    specNormalize crlf_content.data = crlf_content.data ∧
    lf_content.data ≠ crlf_content.data := by
  decide

/-- Claim C9 as amended: for every input file content containing no CR
immediately followed by LF, loading it and immediately serializing the
buffer reproduces the content byte for byte, except that a missing
final newline is normalized to a trailing newline. -/
theorem C9_roundtrip_without_crlf (content : List Char)
    (h : hasCRLF content = false) :
    round_trip content = specNormalize content := by
  rw [round_trip, editor_rows_to_string, rowsJoin_lines, editor_open,
    open_fold_lines]
  simpa [initial_config] using joinLines_fileLines content h

/-- Witness for the amended C9 on the two-line content
"hello\nworld". -/
theorem C9_roundtrip_without_crlf_witness :
    hasCRLF roundtrip_sample.data = false ∧
    round_trip roundtrip_sample.data = specNormalize roundtrip_sample.data :=
  ⟨by decide, C9_roundtrip_without_crlf _ (by decide)⟩

/-- Claim C10 (code bug, evaluated at the failing input): on the row
"\taaaa" with the cursor at file column 5 (render column 12) and a
3-column screen, the first `editor_scroll` sets `column_offset` to 10
and a second, with nothing changed in between, moves it to 12 — the
recomputation is not idempotent, because the column branches compare
the file-coordinate `cursor_x` against the render-coordinate offset
while assigning from `render_x` (main.rs:724-730). -/
theorem C10_scroll_not_idempotent :
    (editor_scroll cfgC10).column_offset = 10 ∧
    (editor_scroll (editor_scroll cfgC10)).column_offset = 12 ∧
    (editor_scroll (editor_scroll cfgC10)).column_offset ≠
      (editor_scroll cfgC10).column_offset := by
  decide
